import Mathlib

/-!
Shallow embedding of the enviro-server push-alert backend (src/server.js,
with src/unnamed/part_000 as the second backend variant sharing the same
risk engine and deduplication core).

Number values carried by readings are modelled as rationals; alert types
and severities are the literal strings the code uses.  Alert messages are
presentation-only strings that never influence control flow, so they are
not carried in the model.
-/

/-- RISK_LIMITS.PM25_WARNING (unused by the classifier, kept from source). -/
def PM25_WARNING : ℚ := 12
/-- RISK_LIMITS.PM25_SEVERE -/
def PM25_SEVERE : ℚ := 35
/-- RISK_LIMITS.PM25_DANGER -/
def PM25_DANGER : ℚ := 55
/-- RISK_LIMITS.UV_WARNING (unused by the classifier, kept from source). -/
def UV_WARNING : ℚ := 3
/-- RISK_LIMITS.UV_DANGER -/
def UV_DANGER : ℚ := 6
/-- RISK_LIMITS.TEMP_WARNING (unused by the classifier, kept from source). -/
def TEMP_WARNING : ℚ := 35
/-- RISK_LIMITS.TEMP_DANGER -/
def TEMP_DANGER : ℚ := 40
/-- RISK_LIMITS.VISIBILITY_WARNING (unused by the classifier, kept from source). -/
def VISIBILITY_WARNING : ℚ := 5
/-- RISK_LIMITS.VISIBILITY_DANGER -/
def VISIBILITY_DANGER : ℚ := 2
/-- RISK_LIMITS.WIND_WARNING (unused by the classifier, kept from source). -/
def WIND_WARNING : ℚ := 40
/-- RISK_LIMITS.WIND_DANGER -/
def WIND_DANGER : ℚ := 70

/-- A classified alert as pushed by evaluateRisk: a type tag and a severity,
both the literal strings from the source. -/
structure Alert where
  type : String
  severity : String
deriving DecidableEq, Repr

/-- A reading snapshot: the five fields evaluateRisk reads out of the
weather-API response body (data.current.air_quality.pm2_5, data.current.uv,
data.current.temp_c, data.current.vis_km, data.current.wind_kph).
A missing field (undefined or null in JS, caught by the == null checks)
is modelled as none. -/
structure Reading where
  pm2_5 : Option ℚ
  uv : Option ℚ
  temp_c : Option ℚ
  vis_km : Option ℚ
  wind_kph : Option ℚ
deriving DecidableEq, Repr

/-- evaluateRisk from src/server.js lines 24-57: if any of pm25, uv, temp,
visibility is null, return the empty list; otherwise push the per-metric
alerts in source order (air quality, UV, temperature, visibility, wind),
the wind check guarded by its own presence test. -/
def evaluateRisk (data : Reading) : List Alert :=
  match data.pm2_5, data.uv, data.temp_c, data.vis_km with
  | some pm25, some uv, some temp, some visibility =>
      (if pm25 > PM25_DANGER then
        [{ type := "AirQuality_danger", severity := "danger" }]
      else if pm25 > PM25_SEVERE then
        [{ type := "AirQuality_severe", severity := "severe" }]
      else [])
      ++ (if uv > UV_DANGER then
        [{ type := "UV_danger", severity := "danger" }] else [])
      ++ (if temp > TEMP_DANGER then
        [{ type := "Temp_danger", severity := "danger" }] else [])
      ++ (if visibility < VISIBILITY_DANGER then
        [{ type := "Visibility_danger", severity := "danger" }] else [])
      ++ (match data.wind_kph with
          | some wind =>
            if wind > WIND_DANGER then
              [{ type := "Wind_danger", severity := "danger" }] else []
          | none => [])
  | _, _, _, _ => []

/-- The air-quality segment of evaluateRisk (the first if/else-if chain). -/
def airQualityAlerts (pm25 : ℚ) : List Alert :=
  if pm25 > PM25_DANGER then
    [{ type := "AirQuality_danger", severity := "danger" }]
  else if pm25 > PM25_SEVERE then
    [{ type := "AirQuality_severe", severity := "severe" }]
  else []

/-- The UV segment of evaluateRisk. -/
def uvAlerts (uv : ℚ) : List Alert :=
  if uv > UV_DANGER then [{ type := "UV_danger", severity := "danger" }] else []

/-- The temperature segment of evaluateRisk. -/
def tempAlerts (temp : ℚ) : List Alert :=
  if temp > TEMP_DANGER then [{ type := "Temp_danger", severity := "danger" }] else []

/-- The visibility segment of evaluateRisk (inverted comparison: lower is worse). -/
def visibilityAlerts (visibility : ℚ) : List Alert :=
  if visibility < VISIBILITY_DANGER then
    [{ type := "Visibility_danger", severity := "danger" }] else []

/-- The wind segment of evaluateRisk: only evaluated when wind_kph is present. -/
def windAlerts (wind : Option ℚ) : List Alert :=
  match wind with
  | some w => if w > WIND_DANGER then [{ type := "Wind_danger", severity := "danger" }] else []
  | none => []

/-- The severity filter from checkAllUsers: keep alerts whose severity is
"severe" or "danger" (src/server.js lines 138-140). -/
def filterSevere (alerts : List Alert) : List Alert :=
  alerts.filter (fun a => a.severity == "severe" || a.severity == "danger")

/-- The deduplication filter from checkAllUsers: keep alerts whose type is
not already in lastAlertedTypes (src/server.js lines 143-145). -/
def newAlerts (severeAndAbove : List Alert) (lastAlertedTypes : List String) : List Alert :=
  severeAndAbove.filter (fun a => !(lastAlertedTypes.contains a.type))

/-- The alert-deduplicator core of checkAllUsers (src/server.js lines
138-152) as a pure function: filter to severe-and-above, compute the new
alerts to notify, and the replacement list of alerted types. -/
def reconcile (allAlerts : List Alert) (priorAlertedTypes : List String) :
    List Alert × List String :=
  let severeAndAbove := filterSevere allAlerts
  (newAlerts severeAndAbove priorAlertedTypes, severeAndAbove.map (fun a => a.type))

/-- A stored subscriber record, the value kept in userStore
(src/server.js lines 175-181): the token itself, location, the appOpen
flag, and the list of alert types last notified. -/
structure User where
  fcmToken : String
  latitude : ℚ
  longitude : ℚ
  appOpen : Bool
  lastAlertedTypes : List String
deriving DecidableEq, Repr

/-- The in-memory userStore: a JS Map modelled as an association list in
insertion order with unique keys. -/
abbrev Store := List (String × User)

/-- userStore.get: the first (and, keys being unique, only) entry whose
key is the token. -/
def getUser (store : Store) (token : String) : Option User :=
  (store.find? (fun p => p.1 == token)).map (fun p => p.2)

/-- userStore.set: replace the value in place when the key exists
(a JS Map keeps the original insertion position), append otherwise. -/
def storeSet (store : Store) (token : String) (u : User) : Store :=
  if store.any (fun p => p.1 == token) then
    store.map (fun p => if p.1 == token then (token, u) else p)
  else
    store ++ [(token, u)]

/-- The observable outcome of one push attempt, abstracting the Expo
response handling in sendExpoPushNotification (src/server.js lines 91-110):
ok (delivered), an error the code only logs (error status with another
detail code, or a thrown request error, both swallowed by the handler),
or an error whose detail code is DeviceNotRegistered or InvalidCredentials,
which makes the handler delete the token. -/
inductive PushOutcome where
  | ok
  | errorOther
  | errorInvalidToken
deriving DecidableEq, Repr

/-- The two external collaborators of checkAllUsers, as oracles: the
weather fetch for a given token's stored coordinates (none models an
axios error caught by the per-user try/catch) and the push dispatch. -/
structure Env where
  fetch : String → Option Reading
  dispatch : String → Alert → PushOutcome

/-- The store effect of sendExpoPushNotification (src/server.js lines
66-111): on a DeviceNotRegistered / InvalidCredentials error the token is
deleted from userStore; every other outcome leaves the store untouched.
The function never throws into its caller. -/
def sendExpoPushNotification (env : Env) (store : Store) (token : String)
    (alert : Alert) : Store :=
  match env.dispatch token alert with
  | .errorInvalidToken => store.filter (fun p => p.1 != token)
  | _ => store

/-- One observable external call made during a sweep: a weather fetch for
a token, or a push dispatch of an alert to a token. -/
inductive Call where
  | fetchCall (token : String)
  | dispatchCall (token : String) (alert : Alert)
deriving DecidableEq, Repr

/-- The token an external call is about. -/
def Call.token : Call → String
  | .fetchCall t => t
  | .dispatchCall t _ => t

/-- The body of the per-user loop of checkAllUsers (src/server.js lines
122-157), returning the updated store and the external calls made: skip
when appOpen; on fetch failure the catch logs and continues; otherwise
classify, deduplicate against lastAlertedTypes, dispatch each new alert in
order, then write back the severe-and-above type list — the in-place
object assignment is visible through the store only while the entry is
still present, so it is modelled as a keyed update. -/
def processUser (env : Env) (store : Store) (token : String) (user : User) :
    Store × List Call :=
  if user.appOpen then (store, [])
  else
    match env.fetch token with
    | none => (store, [Call.fetchCall token])
    | some data =>
        let severeAndAbove := filterSevere (evaluateRisk data)
        let na := newAlerts severeAndAbove user.lastAlertedTypes
        let store1 := na.foldl (fun st alert => sendExpoPushNotification env st token alert) store
        let store2 := store1.map (fun p =>
          if p.1 == token then
            (p.1, { p.2 with lastAlertedTypes := severeAndAbove.map (fun a => a.type) })
          else p)
        (store2, Call.fetchCall token :: na.map (fun a => Call.dispatchCall token a))

/-- The sweep loop: fold the per-user body over the entries snapshot,
threading the store and accumulating the call trace.  Iterating the
snapshot is faithful to iterating the live JS Map because the loop only
ever deletes or rewrites the entry it is currently visiting. -/
def sweepGo (env : Env) (entries : List (String × User)) (store : Store)
    (trace : List Call) : Store × List Call :=
  match entries with
  | [] => (store, trace)
  | p :: rest =>
      let r := processUser env store p.1 p.2
      sweepGo env rest r.1 (trace ++ r.2)

/-- checkAllUsers (src/server.js lines 114-158).  The early return on an
empty store is observationally the fold over zero entries. -/
def checkAllUsers (env : Env) (store : Store) : Store × List Call :=
  sweepGo env store store []

/-- The net effect of one sweep iteration on its own subscriber, read off
processUser: unchanged when appOpen or when the fetch fails; deleted when
some dispatched new alert reports an invalid token; otherwise the
lastAlertedTypes list is replaced by the severe-and-above types. -/
def userOutcome (env : Env) (token : String) (user : User) : Option User :=
  if user.appOpen then some user
  else
    match env.fetch token with
    | none => some user
    | some data =>
        let severeAndAbove := filterSevere (evaluateRisk data)
        let na := newAlerts severeAndAbove user.lastAlertedTypes
        if na.any (fun a => env.dispatch token a == PushOutcome.errorInvalidToken) then
          none
        else
          some { user with lastAlertedTypes := severeAndAbove.map (fun a => a.type) }

/-- The external calls one sweep iteration makes for its subscriber. -/
def userTrace (env : Env) (token : String) (user : User) : List Call :=
  if user.appOpen then []
  else
    match env.fetch token with
    | none => [Call.fetchCall token]
    | some data =>
        Call.fetchCall token ::
          (newAlerts (filterSevere (evaluateRisk data)) user.lastAlertedTypes).map
            (fun a => Call.dispatchCall token a)

/-- JS truthiness of a request-body field expected to be a string:
!x rejects a missing field and the empty string. -/
def truthyStr : Option String → Bool
  | none => false
  | some s => s != ""

/-- JS truthiness of a request-body field expected to be a number:
!x rejects a missing field and the number 0. -/
def truthyNum : Option ℚ → Bool
  | none => false
  | some q => q != 0

/-- The Expo token-format check fcmToken.startsWith("ExponentPushToken[").
JS String.prototype.startsWith is a prefix test on the character sequence;
it is modelled over String.data so that it stays kernel-computable. -/
def isExpoToken (token : String) : Bool :=
  token.data.take "ExponentPushToken[".data.length == "ExponentPushToken[".data

/-- The request body of POST /register. -/
structure RegisterBody where
  fcmToken : Option String
  latitude : Option ℚ
  longitude : Option ℚ

/-- The POST /register handler (src/server.js lines 163-185): reject when
any required field is falsy, reject a token without the Expo prefix, else
store a fresh record with appOpen false and empty lastAlertedTypes.
Returns the new store and the HTTP status. -/
def register (body : RegisterBody) (store : Store) : Store × Nat :=
  if !(truthyStr body.fcmToken) || !(truthyNum body.latitude)
      || !(truthyNum body.longitude) then
    (store, 400)
  else
    let token := body.fcmToken.getD ""
    if !(isExpoToken token) then (store, 400)
    else
      (storeSet store token
        { fcmToken := token
          latitude := body.latitude.getD 0
          longitude := body.longitude.getD 0
          appOpen := false
          lastAlertedTypes := [] }, 200)

/-- The request body of POST /update-location. -/
structure UpdateLocationBody where
  fcmToken : Option String
  latitude : Option ℚ
  longitude : Option ℚ
  appOpen : Option Bool

/-- The POST /update-location handler (src/server.js lines 188-220):
reject when a required field is falsy; auto-register an unknown token
(with a fresh record, appOpen defaulting to false through the nullish
coalescing) after the prefix check; otherwise update latitude, longitude
and appOpen in place, leaving lastAlertedTypes alone. -/
def updateLocation (body : UpdateLocationBody) (store : Store) : Store × Nat :=
  if !(truthyStr body.fcmToken) || !(truthyNum body.latitude)
      || !(truthyNum body.longitude) then
    (store, 400)
  else
    let token := body.fcmToken.getD ""
    let lat := body.latitude.getD 0
    let lon := body.longitude.getD 0
    if !(store.any (fun p => p.1 == token)) then
      if !(isExpoToken token) then (store, 400)
      else
        (store ++ [(token,
          { fcmToken := token, latitude := lat, longitude := lon
            appOpen := body.appOpen.getD false, lastAlertedTypes := [] })], 200)
    else
      (store.map (fun p =>
        if p.1 == token then
          (p.1, { p.2 with latitude := lat, longitude := lon
                           appOpen := body.appOpen.getD false })
        else p), 200)

/-! Concrete fixtures used by closed instance checks -/

/-- A reading with hazardous air (pm2_5 = 60) and everything else calm. -/
def readingHazard : Reading :=
  { pm2_5 := some 60, uv := some 1, temp_c := some 10, vis_km := some 10
    wind_kph := some 0 }

/-- A subscriber whose app is open at sweep time. -/
def userOpen : User :=
  { fcmToken := "tokOpen", latitude := 1, longitude := 2, appOpen := true
    lastAlertedTypes := [] }

/-- A closed-app subscriber with no previously alerted types. -/
def userA : User :=
  { fcmToken := "tokA", latitude := 1, longitude := 2, appOpen := false
    lastAlertedTypes := [] }

/-- A closed-app subscriber already alerted for hazardous air. -/
def userB : User :=
  { fcmToken := "tokB", latitude := 3, longitude := 4, appOpen := false
    lastAlertedTypes := ["AirQuality_danger"] }

/-- An environment where every fetch yields the hazardous reading and
every dispatch is delivered. -/
def envAllOk : Env :=
  { fetch := fun _ => some readingHazard, dispatch := fun _ _ => PushOutcome.ok }

/-- An environment where the fetch for tokA fails and every other fetch
yields the hazardous reading; every dispatch is delivered. -/
def envFailA : Env :=
  { fetch := fun t => if t == "tokA" then none else some readingHazard
    dispatch := fun _ _ => PushOutcome.ok }

/-- An environment where every fetch succeeds and every dispatch reports
an invalid token. -/
def envInvalid : Env :=
  { fetch := fun _ => some readingHazard
    dispatch := fun _ _ => PushOutcome.errorInvalidToken }

/-! Basic registry lemmas -/

theorem getUser_cons (p : String × User) (store : Store) (token : String) :
    getUser (p :: store) token =
      if p.1 == token then some p.2 else getUser store token := by
  cases h : (p.1 == token) <;> simp [getUser, List.find?_cons, h]

theorem getUser_of_mem_nodup (store : Store) (token : String) (u : User)
    (hnd : (store.map Prod.fst).Nodup) (hmem : (token, u) ∈ store) :
    getUser store token = some u := by
  induction store with
  | nil => cases hmem
  | cons q rest ih =>
      rcases List.mem_cons.mp hmem with h | h
      · subst h
        simp [getUser_cons]
      · have hk : token ∈ rest.map Prod.fst :=
          List.mem_map.mpr ⟨(token, u), h, rfl⟩
        have hq : q.1 ≠ token := by
          intro he
          exact (List.nodup_cons.mp hnd).1 (he ▸ hk)
        rw [getUser_cons]
        simp only [beq_eq_false_iff_ne.mpr hq]
        exact ih (List.nodup_cons.mp hnd).2 h

theorem any_key_of_getUser_some (store : Store) (token : String) (u : User)
    (h : getUser store token = some u) :
    store.any (fun p => p.1 == token) = true := by
  induction store with
  | nil => simp [getUser] at h
  | cons q rest ih =>
      rw [getUser_cons] at h
      by_cases hq : q.1 = token
      · simp [hq]
      · rw [if_neg (by simpa using hq)] at h
        simp [List.any_cons, ih h]

theorem getUser_eq_none_of_not_any (store : Store) (token : String)
    (h : store.any (fun p => p.1 == token) = false) :
    getUser store token = none := by
  simp only [getUser, Option.map_eq_none']
  rw [List.find?_eq_none]
  intro p hp hbeq
  rw [List.any_eq_false] at h
  exact h p hp hbeq

theorem not_any_of_getUser_none (store : Store) (token : String)
    (h : getUser store token = none) :
    store.any (fun p => p.1 == token) = false := by
  simp only [getUser, Option.map_eq_none'] at h
  rw [List.find?_eq_none] at h
  rw [List.any_eq_false]
  exact h

theorem getUser_append_single (store : Store) (token : String) (u : User)
    (h : getUser store token = none) :
    getUser (store ++ [(token, u)]) token = some u := by
  simp only [getUser, Option.map_eq_none'] at h
  simp [getUser, List.find?_append, h]

theorem getUser_cons_eq (p : String × User) (store : Store) (token : String) :
    getUser (p :: store) token =
      if p.1 = token then some p.2 else getUser store token := by
  rw [getUser_cons]
  by_cases h : p.1 = token <;> simp [h]

theorem getUser_mapUpdate_self (store : Store) (token : String) (f : User → User) :
    getUser (store.map (fun p => if p.1 == token then (p.1, f p.2) else p)) token =
      (getUser store token).map f := by
  induction store with
  | nil => simp [getUser]
  | cons q rest ih =>
      by_cases hq : q.1 = token
      · simp [getUser_cons_eq, hq]
      · simp [getUser_cons_eq, hq]
        simpa using ih

theorem getUser_mapUpdate_ne (store : Store) (token : String) (f : User → User)
    (t : String) (hne : t ≠ token) :
    getUser (store.map (fun p => if p.1 == token then (p.1, f p.2) else p)) t =
      getUser store t := by
  induction store with
  | nil => simp [getUser]
  | cons q rest ih =>
      by_cases hq : q.1 = token
      · have hqt : q.1 ≠ t := by rw [hq]; exact Ne.symm hne
        simp [getUser_cons_eq, hq, hqt, Ne.symm hne]
        simpa using ih
      · by_cases hqt : q.1 = t
        · simp [getUser_cons_eq, hq, hqt, hne]
        · simp [getUser_cons_eq, hq, hqt]
          simpa using ih

theorem getUser_filter_self (store : Store) (token : String) :
    getUser (store.filter (fun p => p.1 != token)) token = none := by
  simp only [getUser, Option.map_eq_none']
  rw [List.find?_eq_none]
  intro p hp
  have := (List.mem_filter.mp hp).2
  simp only [bne_iff_ne, ne_eq] at this
  simp [this]

theorem getUser_filter_ne (store : Store) (token t : String) (hne : t ≠ token) :
    getUser (store.filter (fun p => p.1 != token)) t = getUser store t := by
  induction store with
  | nil => simp
  | cons q rest ih =>
      by_cases hq : q.1 = token
      · rw [List.filter_cons_of_neg (by simp [hq]), getUser_cons, ih]
        have : q.1 ≠ t := by rw [hq]; exact Ne.symm hne
        simp [this]
      · rw [List.filter_cons_of_pos (by simpa using hq), getUser_cons, getUser_cons, ih]

/-! Push and sweep lemmas -/

theorem sendPush_getUser_self (env : Env) (st : Store) (token : String) (a : Alert) :
    getUser (sendExpoPushNotification env st token a) token =
      if env.dispatch token a == PushOutcome.errorInvalidToken then none
      else getUser st token := by
  cases h : env.dispatch token a <;>
    simp [sendExpoPushNotification, h, getUser_filter_self]

theorem sendPush_getUser_ne (env : Env) (st : Store) (token : String) (a : Alert)
    (t : String) (hne : t ≠ token) :
    getUser (sendExpoPushNotification env st token a) t = getUser st t := by
  cases h : env.dispatch token a <;>
    simp [sendExpoPushNotification, h, getUser_filter_ne st token t hne]

theorem foldSend_getUser_ne (env : Env) (token t : String) (hne : t ≠ token) :
    ∀ (na : List Alert) (st : Store),
      getUser (na.foldl (fun st alert => sendExpoPushNotification env st token alert) st) t =
        getUser st t := by
  intro na
  induction na with
  | nil => intro st; rfl
  | cons a rest ih =>
      intro st
      rw [List.foldl_cons, ih, sendPush_getUser_ne env st token a t hne]

theorem foldSend_getUser_self (env : Env) (token : String) :
    ∀ (na : List Alert) (st : Store),
      getUser (na.foldl (fun st alert => sendExpoPushNotification env st token alert) st) token =
        if na.any (fun a => env.dispatch token a == PushOutcome.errorInvalidToken) then none
        else getUser st token := by
  intro na
  induction na with
  | nil => intro st; rfl
  | cons a rest ih =>
      intro st
      rw [List.foldl_cons, ih, sendPush_getUser_self]
      cases h : (env.dispatch token a == PushOutcome.errorInvalidToken) <;>
        simp [List.any_cons, h]

theorem processUser_snd (env : Env) (st : Store) (token : String) (user : User) :
    (processUser env st token user).2 = userTrace env token user := by
  cases h : user.appOpen <;> simp only [processUser, userTrace, h]
  · cases hf : env.fetch token <;> simp
  · simp

theorem processUser_getUser_ne (env : Env) (st : Store) (token : String) (user : User)
    (t : String) (hne : t ≠ token) :
    getUser (processUser env st token user).1 t = getUser st t := by
  cases h : user.appOpen
  · cases hf : env.fetch token with
    | none => simp [processUser, h, hf]
    | some data =>
        simp only [processUser, h, hf, Bool.false_eq_true, if_false]
        rw [getUser_mapUpdate_ne _ token
          (fun v => { v with lastAlertedTypes :=
            (filterSevere (evaluateRisk data)).map (fun a => a.type) }) t hne]
        exact foldSend_getUser_ne env token t hne _ st
  · simp [processUser, h]

theorem processUser_getUser_self (env : Env) (st : Store) (token : String) (user : User)
    (hget : getUser st token = some user) :
    getUser (processUser env st token user).1 token = userOutcome env token user := by
  cases h : user.appOpen
  · cases hf : env.fetch token with
    | none => simpa [processUser, userOutcome, h, hf] using hget
    | some data =>
        simp only [processUser, userOutcome, h, hf, Bool.false_eq_true, if_false]
        rw [getUser_mapUpdate_self _ token
          (fun v => { v with lastAlertedTypes :=
            (filterSevere (evaluateRisk data)).map (fun a => a.type) })]
        rw [foldSend_getUser_self]
        cases hany : ((newAlerts (filterSevere (evaluateRisk data)) user.lastAlertedTypes).any
            (fun a => env.dispatch token a == PushOutcome.errorInvalidToken)) <;>
          simp [hany, hget, h]
  · simpa [processUser, userOutcome, h] using hget

theorem sweepGo_snd (env : Env) :
    ∀ (entries : List (String × User)) (st : Store) (tr : List Call),
      (sweepGo env entries st tr).2 =
        tr ++ entries.flatMap (fun p => userTrace env p.1 p.2) := by
  intro entries
  induction entries with
  | nil => intro st tr; simp [sweepGo]
  | cons p rest ih =>
      intro st tr
      rw [sweepGo, ih, processUser_snd]
      simp [List.flatMap_cons]

theorem sweepGo_getUser_not_mem (env : Env) :
    ∀ (entries : List (String × User)) (st : Store) (tr : List Call) (token : String),
      token ∉ entries.map Prod.fst →
      getUser (sweepGo env entries st tr).1 token = getUser st token := by
  intro entries
  induction entries with
  | nil => intro st tr token _; rfl
  | cons p rest ih =>
      intro st tr token hnm
      simp only [List.map_cons, List.mem_cons] at hnm
      push_neg at hnm
      rw [sweepGo, ih _ _ token hnm.2]
      exact processUser_getUser_ne env st p.1 p.2 token hnm.1

theorem sweepGo_getUser_mem (env : Env) :
    ∀ (entries : List (String × User)) (st : Store) (tr : List Call)
      (token : String) (user : User),
      (entries.map Prod.fst).Nodup → (token, user) ∈ entries →
      getUser st token = some user →
      getUser (sweepGo env entries st tr).1 token = userOutcome env token user := by
  intro entries
  induction entries with
  | nil => intro st tr token user _ hmem; cases hmem
  | cons p rest ih =>
      intro st tr token user hnd hmem hget
      have hnd0 : (p.1 :: rest.map Prod.fst).Nodup := by
        rw [List.map_cons] at hnd; exact hnd
      have hnd' := List.nodup_cons.mp hnd0
      rcases List.mem_cons.mp hmem with h | h
      · subst h
        rw [sweepGo]
        rw [sweepGo_getUser_not_mem env rest _ _ token hnd'.1]
        exact processUser_getUser_self env st token user hget
      · have hk : token ∈ rest.map Prod.fst :=
          List.mem_map.mpr ⟨(token, user), h, rfl⟩
        have hne : token ≠ p.1 := by
          intro he
          exact hnd'.1 (he ▸ hk)
        rw [sweepGo]
        refine ih _ _ token user hnd'.2 h ?_
        rw [processUser_getUser_ne env st p.1 p.2 token hne]
        exact hget

theorem checkAllUsers_getUser (env : Env) (store : Store) (token : String) (user : User)
    (hnd : (store.map Prod.fst).Nodup) (hmem : (token, user) ∈ store) :
    getUser (checkAllUsers env store).1 token = userOutcome env token user :=
  sweepGo_getUser_mem env store store [] token user hnd hmem
    (getUser_of_mem_nodup store token user hnd hmem)

theorem checkAllUsers_snd (env : Env) (store : Store) :
    (checkAllUsers env store).2 = store.flatMap (fun p => userTrace env p.1 p.2) := by
  rw [checkAllUsers, sweepGo_snd]
  simp

theorem token_of_mem_userTrace (env : Env) (token : String) (user : User)
    (c : Call) (h : c ∈ userTrace env token user) : c.token = token := by
  rw [userTrace] at h
  cases happ : user.appOpen <;> rw [happ] at h
  · cases hf : env.fetch token <;> rw [hf] at h
    · simp at h
      subst h
      rfl
    · rcases List.mem_cons.mp h with h | h
      · subst h; rfl
      · rcases List.mem_map.mp h with ⟨a, _, ha⟩
        subst ha; rfl
  · simp at h

theorem mem_unique_of_nodup_keys (store : Store) (token : String) (u v : User)
    (hnd : (store.map Prod.fst).Nodup)
    (hu : (token, u) ∈ store) (hv : (token, v) ∈ store) : u = v := by
  have h1 := getUser_of_mem_nodup store token u hnd hu
  have h2 := getUser_of_mem_nodup store token v hnd hv
  rw [h1] at h2
  exact Option.some_inj.mp h2

/-! Classifier segment lemmas -/

theorem evaluateRisk_decompose (pm uv temp vis : ℚ) (wind : Option ℚ) :
    evaluateRisk ⟨some pm, some uv, some temp, some vis, wind⟩ =
      airQualityAlerts pm ++ uvAlerts uv ++ tempAlerts temp ++ visibilityAlerts vis
        ++ windAlerts wind := by
  rfl

theorem mem_airQualityAlerts (pm : ℚ) (a : Alert) (h : a ∈ airQualityAlerts pm) :
    a.type = "AirQuality_danger" ∨ a.type = "AirQuality_severe" := by
  rw [airQualityAlerts] at h
  split at h
  · simp at h; subst h; left; rfl
  · split at h
    · simp at h; subst h; right; rfl
    · simp at h

theorem mem_uvAlerts (uv : ℚ) (a : Alert) (h : a ∈ uvAlerts uv) :
    a = { type := "UV_danger", severity := "danger" } := by
  rw [uvAlerts] at h
  split at h
  · simpa using h
  · simp at h

theorem mem_tempAlerts (temp : ℚ) (a : Alert) (h : a ∈ tempAlerts temp) :
    a = { type := "Temp_danger", severity := "danger" } := by
  rw [tempAlerts] at h
  split at h
  · simpa using h
  · simp at h

theorem mem_visibilityAlerts (vis : ℚ) (a : Alert) (h : a ∈ visibilityAlerts vis) :
    a = { type := "Visibility_danger", severity := "danger" } := by
  rw [visibilityAlerts] at h
  split at h
  · simpa using h
  · simp at h

theorem mem_windAlerts (wind : Option ℚ) (a : Alert) (h : a ∈ windAlerts wind) :
    a = { type := "Wind_danger", severity := "danger" } := by
  cases wind with
  | none => simp [windAlerts] at h
  | some w =>
      simp only [windAlerts] at h
      split at h
      · simpa using h
      · simp at h

theorem filterSevere_eq_self (alerts : List Alert)
    (h : ∀ a ∈ alerts, a.severity = "severe" ∨ a.severity = "danger") :
    filterSevere alerts = alerts := by
  rw [filterSevere, List.filter_eq_self]
  intro a ha
  rcases h a ha with hs | hs <;> simp [hs]

/-! storeSet lemmas -/

theorem getUser_mapConst_self (store : Store) (token : String) (u : User)
    (h : store.any (fun p => p.1 == token) = true) :
    getUser (store.map (fun p => if p.1 == token then (token, u) else p)) token =
      some u := by
  induction store with
  | nil => simp at h
  | cons q rest ih =>
      by_cases hq : q.1 = token
      · simp [getUser_cons_eq, hq]
      · simp only [List.any_cons] at h
        have hr : rest.any (fun p => p.1 == token) = true := by
          rcases Bool.or_eq_true_iff.mp h with hh | hh
          · exact absurd (by simpa using hh) hq
          · exact hh
        have hbq : ((q.1 == token) = true) = False := by simp [hq]
        simp only [List.map_cons, hbq, if_false]
        rw [getUser_cons_eq, if_neg hq]
        exact ih hr

theorem getUser_storeSet_self (store : Store) (token : String) (u : User) :
    getUser (storeSet store token u) token = some u := by
  rw [storeSet]
  by_cases h : store.any (fun p => p.1 == token) = true
  · rw [if_pos h]
    exact getUser_mapConst_self store token u h
  · rw [if_neg h]
    have hf : store.any (fun p => p.1 == token) = false :=
      Bool.not_eq_true _ ▸ eq_false_of_ne_true h
    exact getUser_append_single store token u (getUser_eq_none_of_not_any store token hf)

/-! Claims -/

/-- Claim C1: for a sequence of classified alerts (all severe or danger)
and a prior alerted-type set S, reconcile's toNotify is exactly the
order-preserving subsequence of activeAlerts whose type is not in S, and
when S is exactly the type set of activeAlerts, toNotify is empty and
newAlertedTypes has the same members as S. -/
theorem C1_reconcile_dedup (activeAlerts : List Alert) (S : List String)
    (hsev : ∀ a ∈ activeAlerts, a.severity = "severe" ∨ a.severity = "danger") :
    (reconcile activeAlerts S).1 =
      activeAlerts.filter (fun a => !(S.contains a.type)) ∧
    ((∀ t : String, t ∈ S ↔ t ∈ activeAlerts.map (fun a => a.type)) →
      (reconcile activeAlerts S).1 = [] ∧
      (∀ t : String, t ∈ (reconcile activeAlerts S).2 ↔ t ∈ S)) := by
  have hfs : filterSevere activeAlerts = activeAlerts := filterSevere_eq_self _ hsev
  have h1 : (reconcile activeAlerts S).1 =
      activeAlerts.filter (fun a => !(S.contains a.type)) := by
    simp only [reconcile, newAlerts, hfs]
  have h2 : (reconcile activeAlerts S).2 = activeAlerts.map (fun a => a.type) := by
    simp only [reconcile, hfs]
  refine ⟨h1, fun hS => ⟨?_, ?_⟩⟩
  · rw [h1, List.filter_eq_nil_iff]
    intro a ha
    have hmem : a.type ∈ S := (hS a.type).mpr (List.mem_map.mpr ⟨a, ha, rfl⟩)
    simpa using hmem
  · intro t
    rw [h2]
    exact (hS t).symm

/-- Claim C1 instance: reconciling a single danger alert against a prior
set holding exactly its type notifies nothing and keeps the set. -/
theorem C1_reconcile_dedup_witness :
    (∀ a ∈ [Alert.mk "UV_danger" "danger"],
        a.severity = "severe" ∨ a.severity = "danger") ∧
    ((reconcile [Alert.mk "UV_danger" "danger"] ["UV_danger"]).1 =
        [Alert.mk "UV_danger" "danger"].filter
          (fun a => !((["UV_danger"] : List String).contains a.type)) ∧
      ((∀ t : String, t ∈ ["UV_danger"] ↔
          t ∈ [Alert.mk "UV_danger" "danger"].map (fun a => a.type)) →
        (reconcile [Alert.mk "UV_danger" "danger"] ["UV_danger"]).1 = [] ∧
        (∀ t : String,
          t ∈ (reconcile [Alert.mk "UV_danger" "danger"] ["UV_danger"]).2 ↔
            t ∈ ["UV_danger"]))) :=
  ⟨by decide, C1_reconcile_dedup [Alert.mk "UV_danger" "danger"] ["UV_danger"] (by decide)⟩

/-- Claim C2: a successful sweep iteration replaces the subscriber's
lastAlertedTypes wholesale with the current severe-or-above type list
(whatever the prior set was), reconciling an empty alert list against a
prior set empties it, and a classified alert against an empty prior set
re-fires. -/
theorem C2_wholesale_replacement :
    (∀ (env : Env) (store : Store) (token : String) (user : User) (data : Reading),
        (store.map Prod.fst).Nodup → (token, user) ∈ store →
        user.appOpen = false → env.fetch token = some data →
        (∀ a ∈ newAlerts (filterSevere (evaluateRisk data)) user.lastAlertedTypes,
          env.dispatch token a ≠ PushOutcome.errorInvalidToken) →
        getUser (checkAllUsers env store).1 token =
          some { user with lastAlertedTypes :=
            (filterSevere (evaluateRisk data)).map (fun a => a.type) }) ∧
    (∀ t : String, reconcile [] [t] = ([], [])) ∧
    (∀ a : Alert, a.severity = "severe" ∨ a.severity = "danger" →
        reconcile [a] [] = ([a], [a.type])) := by
  refine ⟨?_, ?_, ?_⟩
  · intro env store token user data hnd hmem hopen hfetch hdisp
    rw [checkAllUsers_getUser env store token user hnd hmem]
    have hany : ((newAlerts (filterSevere (evaluateRisk data))
        user.lastAlertedTypes).any
        (fun a => env.dispatch token a == PushOutcome.errorInvalidToken)) = false := by
      rw [List.any_eq_false]
      intro a ha
      simpa using hdisp a ha
    simp [userOutcome, hopen, hfetch, hany]
  · intro t
    rfl
  · intro a ha
    have hone : filterSevere [a] = [a] := by
      apply filterSevere_eq_self
      intro b hb
      rw [List.mem_singleton.mp hb]
      exact ha
    simp [reconcile, hone, newAlerts]

/-- Claim C2 instance: a subscriber already alerted for hazardous air
keeps exactly the current severe-or-above type list after a successful
sweep, and the two reconcile recovery equations at concrete inputs. -/
theorem C2_wholesale_replacement_witness :
    ((([("tokB", userB)] : Store).map Prod.fst).Nodup ∧
      ("tokB", userB) ∈ ([("tokB", userB)] : Store) ∧
      userB.appOpen = false ∧
      envAllOk.fetch "tokB" = some readingHazard ∧
      (∀ a ∈ newAlerts (filterSevere (evaluateRisk readingHazard))
          userB.lastAlertedTypes,
        envAllOk.dispatch "tokB" a ≠ PushOutcome.errorInvalidToken)) ∧
    getUser (checkAllUsers envAllOk [("tokB", userB)]).1 "tokB" =
      some { userB with lastAlertedTypes :=
        (filterSevere (evaluateRisk readingHazard)).map (fun a => a.type) } ∧
    reconcile [] ["AirQuality_danger"] = ([], []) ∧
    reconcile [Alert.mk "AirQuality_danger" "danger"] [] =
      ([Alert.mk "AirQuality_danger" "danger"], ["AirQuality_danger"]) :=
  ⟨⟨by decide, by decide, by decide, rfl, by decide⟩,
    C2_wholesale_replacement.1 envAllOk [("tokB", userB)] "tokB" userB readingHazard
      (by decide) (by decide) (by decide) rfl (by decide),
    C2_wholesale_replacement.2.1 "AirQuality_danger",
    C2_wholesale_replacement.2.2 (Alert.mk "AirQuality_danger" "danger") (by decide)⟩

/-- Claim C3: a snapshot missing pm2_5, uv, temp_c or vis_km classifies to
the empty sequence, while a missing wind_kph alone still evaluates the
other four metrics and only skips the wind check. -/
theorem C3_missing_field_gate :
    (∀ s : Reading,
        s.pm2_5 = none ∨ s.uv = none ∨ s.temp_c = none ∨ s.vis_km = none →
        evaluateRisk s = []) ∧
    (∀ pm uv temp vis : ℚ,
        evaluateRisk ⟨some pm, some uv, some temp, some vis, none⟩ =
          airQualityAlerts pm ++ uvAlerts uv ++ tempAlerts temp
            ++ visibilityAlerts vis ∧
        ∀ a ∈ evaluateRisk ⟨some pm, some uv, some temp, some vis, none⟩,
          a.type ≠ "Wind_danger") := by
  constructor
  · intro s h
    obtain ⟨p, u, t, v, w⟩ := s
    cases p <;> cases u <;> cases t <;> cases v <;>
      first
        | rfl
        | (exfalso; rcases h with h | h | h | h <;> simp at h)
  · intro pm uv temp vis
    constructor
    · rw [evaluateRisk_decompose]
      simp [windAlerts]
    · intro a ha
      rw [evaluateRisk_decompose] at ha
      simp only [windAlerts, List.append_nil] at ha
      rcases List.mem_append.mp ha with h3 | h4
      · rcases List.mem_append.mp h3 with h2 | h2'
        · rcases List.mem_append.mp h2 with h1 | h1'
          · rcases mem_airQualityAlerts _ _ h1 with he | he <;> rw [he] <;> decide
          · rw [mem_uvAlerts _ _ h1']
            decide
        · rw [mem_tempAlerts _ _ h2']
          decide
      · rw [mem_visibilityAlerts _ _ h4]
        decide

/-- Claim C3 instance: missing pm2_5 yields the empty classification, and
a snapshot missing only wind still classifies the other four metrics. -/
theorem C3_missing_field_gate_witness :
    ((Reading.mk none (some 1) (some 1) (some 1) (some 1)).pm2_5 = none ∨
      (Reading.mk none (some 1) (some 1) (some 1) (some 1)).uv = none ∨
      (Reading.mk none (some 1) (some 1) (some 1) (some 1)).temp_c = none ∨
      (Reading.mk none (some 1) (some 1) (some 1) (some 1)).vis_km = none) ∧
    evaluateRisk (Reading.mk none (some 1) (some 1) (some 1) (some 1)) = [] ∧
    (evaluateRisk ⟨some 60, some 1, some 10, some 10, none⟩ =
        airQualityAlerts 60 ++ uvAlerts 1 ++ tempAlerts 10 ++ visibilityAlerts 10 ∧
      ∀ a ∈ evaluateRisk ⟨some 60, some 1, some 10, some 10, none⟩,
        a.type ≠ "Wind_danger") :=
  ⟨Or.inl rfl,
    C3_missing_field_gate.1 (Reading.mk none (some 1) (some 1) (some 1) (some 1))
      (Or.inl rfl),
    C3_missing_field_gate.2 60 1 10 10⟩

/-- Claim C4: with all required fields present the classifier output is
the concatenation of the per-metric segments in the fixed order air
quality, UV, temperature, visibility, wind (each segment only holding its
own metric's alert), and the concrete snapshot from the spec yields the
four danger alerts in that order with no air-quality alert. -/
theorem C4_output_order :
    (∀ (pm uv temp vis : ℚ) (wind : Option ℚ),
        evaluateRisk ⟨some pm, some uv, some temp, some vis, wind⟩ =
          airQualityAlerts pm ++ uvAlerts uv ++ tempAlerts temp
            ++ visibilityAlerts vis ++ windAlerts wind) ∧
    (∀ pm : ℚ, ∀ a ∈ airQualityAlerts pm,
        a.type = "AirQuality_danger" ∨ a.type = "AirQuality_severe") ∧
    (∀ uv : ℚ, ∀ a ∈ uvAlerts uv,
        a = { type := "UV_danger", severity := "danger" }) ∧
    (∀ temp : ℚ, ∀ a ∈ tempAlerts temp,
        a = { type := "Temp_danger", severity := "danger" }) ∧
    (∀ vis : ℚ, ∀ a ∈ visibilityAlerts vis,
        a = { type := "Visibility_danger", severity := "danger" }) ∧
    (∀ wind : Option ℚ, ∀ a ∈ windAlerts wind,
        a = { type := "Wind_danger", severity := "danger" }) ∧
    evaluateRisk ⟨some 5, some 7, some 45, some 1, some 80⟩ =
      [{ type := "UV_danger", severity := "danger" },
       { type := "Temp_danger", severity := "danger" },
       { type := "Visibility_danger", severity := "danger" },
       { type := "Wind_danger", severity := "danger" }] :=
  ⟨evaluateRisk_decompose, mem_airQualityAlerts, mem_uvAlerts, mem_tempAlerts,
    mem_visibilityAlerts, mem_windAlerts, by decide⟩

/-- Claim C4 instance: the decomposition and the segment-content facts
evaluated on the spec's concrete snapshot. -/
theorem C4_output_order_witness :
    evaluateRisk ⟨some 5, some 7, some 45, some 1, some 80⟩ =
      airQualityAlerts 5 ++ uvAlerts 7 ++ tempAlerts 45 ++ visibilityAlerts 1
        ++ windAlerts (some 80) ∧
    (Alert.mk "UV_danger" "danger" ∈ uvAlerts 7 ∧
      Alert.mk "UV_danger" "danger" = { type := "UV_danger", severity := "danger" }) ∧
    (Alert.mk "Wind_danger" "danger" ∈ windAlerts (some 80) ∧
      Alert.mk "Wind_danger" "danger" = { type := "Wind_danger", severity := "danger" }) :=
  ⟨C4_output_order.1 5 7 45 1 (some 80),
    ⟨by decide, C4_output_order.2.2.1 7 (Alert.mk "UV_danger" "danger") (by decide)⟩,
    ⟨by decide, C4_output_order.2.2.2.2.2.1 (some 80)
      (Alert.mk "Wind_danger" "danger") (by decide)⟩⟩

/-- Claim C5: a subscriber whose appOpen flag is true at sweep time is
untouched by the sweep and no external call of the sweep (fetch or
dispatch) concerns that subscriber. -/
theorem C5_appOpen_skip (env : Env) (store : Store) (token : String) (user : User)
    (hnd : (store.map Prod.fst).Nodup) (hmem : (token, user) ∈ store)
    (hopen : user.appOpen = true) :
    getUser (checkAllUsers env store).1 token = some user ∧
    ∀ c ∈ (checkAllUsers env store).2, c.token ≠ token := by
  constructor
  · rw [checkAllUsers_getUser env store token user hnd hmem]
    simp [userOutcome, hopen]
  · intro c hc he
    rw [checkAllUsers_snd] at hc
    rcases List.mem_flatMap.mp hc with ⟨p, hp, hcp⟩
    have htok := token_of_mem_userTrace env p.1 p.2 c hcp
    rw [htok] at he
    have hmem2 : (token, p.2) ∈ store := by
      rw [← he]
      exact hp
    have hpu : p.2 = user := mem_unique_of_nodup_keys store token p.2 user hnd hmem2 hmem
    rw [he, hpu] at hcp
    simp [userTrace, hopen] at hcp

/-- Claim C5 instance: with an open-app subscriber in a singleton registry,
the sweep leaves it unchanged and makes no call about its token. -/
theorem C5_appOpen_skip_witness :
    ((([("tokOpen", userOpen)] : Store).map Prod.fst).Nodup ∧
      ("tokOpen", userOpen) ∈ ([("tokOpen", userOpen)] : Store) ∧
      userOpen.appOpen = true) ∧
    (getUser (checkAllUsers envAllOk [("tokOpen", userOpen)]).1 "tokOpen" =
        some userOpen ∧
      ∀ c ∈ (checkAllUsers envAllOk [("tokOpen", userOpen)]).2,
        c.token ≠ "tokOpen") :=
  ⟨⟨by decide, by decide, by decide⟩,
    C5_appOpen_skip envAllOk [("tokOpen", userOpen)] "tokOpen" userOpen
      (by decide) (by decide) (by decide)⟩

/-- Claim C7: a failed weather fetch leaves that subscriber's stored state
unchanged, the sweep still makes every subscriber's external calls in
order, and every other subscriber still reaches its own per-sweep
outcome. -/
theorem C7_fetch_failure_isolated (env : Env) (store : Store) (token : String)
    (user : User)
    (hnd : (store.map Prod.fst).Nodup) (hmem : (token, user) ∈ store)
    (hopen : user.appOpen = false) (hfail : env.fetch token = none) :
    getUser (checkAllUsers env store).1 token = some user ∧
    (checkAllUsers env store).2 = store.flatMap (fun p => userTrace env p.1 p.2) ∧
    (∀ p ∈ store, p.1 ≠ token →
      getUser (checkAllUsers env store).1 p.1 = userOutcome env p.1 p.2) := by
  refine ⟨?_, checkAllUsers_snd env store, ?_⟩
  · rw [checkAllUsers_getUser env store token user hnd hmem]
    simp [userOutcome, hopen, hfail]
  · intro p hp _
    exact checkAllUsers_getUser env store p.1 p.2 hnd hp

/-- Claim C7 instance: in a two-subscriber registry where the first fetch
fails, the first subscriber is unchanged, the trace covers both
subscribers, and the second subscriber reaches its own outcome. -/
theorem C7_fetch_failure_isolated_witness :
    ((([("tokA", userA), ("tokB", userB)] : Store).map Prod.fst).Nodup ∧
      ("tokA", userA) ∈ ([("tokA", userA), ("tokB", userB)] : Store) ∧
      userA.appOpen = false ∧
      envFailA.fetch "tokA" = none) ∧
    (getUser (checkAllUsers envFailA [("tokA", userA), ("tokB", userB)]).1 "tokA" =
        some userA ∧
      (checkAllUsers envFailA [("tokA", userA), ("tokB", userB)]).2 =
        ([("tokA", userA), ("tokB", userB)] : Store).flatMap
          (fun p => userTrace envFailA p.1 p.2) ∧
      (∀ p ∈ ([("tokA", userA), ("tokB", userB)] : Store), p.1 ≠ "tokA" →
        getUser (checkAllUsers envFailA [("tokA", userA), ("tokB", userB)]).1 p.1 =
          userOutcome envFailA p.1 p.2)) :=
  ⟨⟨by decide, by decide, by decide, by decide⟩,
    C7_fetch_failure_isolated envFailA [("tokA", userA), ("tokB", userB)]
      "tokA" userA (by decide) (by decide) (by decide) (by decide)⟩

/-- Claim C8: when some dispatched new alert reports a permanently invalid
address, the sweep removes the subscriber: a subsequent get on the token
is absent, so no alertedTypes update is recorded for it. -/
theorem C8_invalid_token_removed (env : Env) (store : Store) (token : String)
    (user : User) (data : Reading)
    (hnd : (store.map Prod.fst).Nodup) (hmem : (token, user) ∈ store)
    (hopen : user.appOpen = false) (hfetch : env.fetch token = some data)
    (hinv : ∃ a ∈ newAlerts (filterSevere (evaluateRisk data)) user.lastAlertedTypes,
        env.dispatch token a = PushOutcome.errorInvalidToken) :
    getUser (checkAllUsers env store).1 token = none := by
  rw [checkAllUsers_getUser env store token user hnd hmem]
  have hany : ((newAlerts (filterSevere (evaluateRisk data))
      user.lastAlertedTypes).any
      (fun a => env.dispatch token a == PushOutcome.errorInvalidToken)) = true := by
    rw [List.any_eq_true]
    rcases hinv with ⟨a, ha, hd⟩
    exact ⟨a, ha, by simp [hd]⟩
  simp [userOutcome, hopen, hfetch, hany]

/-- Claim C8 instance: a subscriber whose only dispatch reports an invalid
token is absent from the registry after the sweep. -/
theorem C8_invalid_token_removed_witness :
    ((([("tokA", userA)] : Store).map Prod.fst).Nodup ∧
      ("tokA", userA) ∈ ([("tokA", userA)] : Store) ∧
      userA.appOpen = false ∧
      envInvalid.fetch "tokA" = some readingHazard ∧
      (∃ a ∈ newAlerts (filterSevere (evaluateRisk readingHazard))
          userA.lastAlertedTypes,
        envInvalid.dispatch "tokA" a = PushOutcome.errorInvalidToken)) ∧
    getUser (checkAllUsers envInvalid [("tokA", userA)]).1 "tokA" = none :=
  ⟨⟨by decide, by decide, by decide, rfl, by decide⟩,
    C8_invalid_token_removed envInvalid [("tokA", userA)] "tokA" userA
      readingHazard (by decide) (by decide) (by decide) rfl (by decide)⟩

/-- Claim C6 counterexample: /register on an address already present with
alertedTypes ["UV_danger"] succeeds and leaves the subscriber with an
empty alertedTypes list — register does not preserve alertedTypes on
update. -/
theorem C6_register_preserves_counterexample :
    (getUser [("ExponentPushToken[abc]",
        { fcmToken := "ExponentPushToken[abc]", latitude := 1, longitude := 2, appOpen := false, lastAlertedTypes := ["UV_danger"] })]
        "ExponentPushToken[abc]").map User.lastAlertedTypes = some ["UV_danger"] ∧
    (register
        { fcmToken := some "ExponentPushToken[abc]", latitude := some 3, longitude := some 4 }
        [("ExponentPushToken[abc]",
          { fcmToken := "ExponentPushToken[abc]", latitude := 1, longitude := 2, appOpen := false, lastAlertedTypes := ["UV_danger"] })]).2 = 200 ∧
    (getUser (register
        { fcmToken := some "ExponentPushToken[abc]", latitude := some 3, longitude := some 4 }
        [("ExponentPushToken[abc]",
          { fcmToken := "ExponentPushToken[abc]", latitude := 1, longitude := 2, appOpen := false, lastAlertedTypes := ["UV_danger"] })]).1
        "ExponentPushToken[abc]").map User.lastAlertedTypes = some [] := by
  decide

/-- Claim C6 as amended: /register on an existing address stores a fresh
record — location from the request, appOpen reset to false and
alertedTypes reset to empty — while it is /update-location on an existing
address that overwrites only location and appOpen and leaves alertedTypes
unchanged. -/
theorem C6_register_resets_amended (store : Store) (token : String)
    (lat lon : ℚ) (u : User) (ao : Option Bool)
    (hget : getUser store token = some u)
    (hfmt : isExpoToken token = true)
    (hne : token ≠ "") (hlat : lat ≠ 0) (hlon : lon ≠ 0) :
    (register { fcmToken := some token, latitude := some lat, longitude := some lon } store).2 = 200 ∧
    getUser (register { fcmToken := some token, latitude := some lat, longitude := some lon } store).1 token =
      some { fcmToken := token, latitude := lat, longitude := lon, appOpen := false, lastAlertedTypes := [] } ∧
    (updateLocation { fcmToken := some token, latitude := some lat, longitude := some lon, appOpen := ao } store).2 = 200 ∧
    getUser (updateLocation { fcmToken := some token, latitude := some lat, longitude := some lon, appOpen := ao } store).1 token =
      some { u with latitude := lat, longitude := lon, appOpen := ao.getD false } := by
  have hany : store.any (fun p => p.1 == token) = true :=
    any_key_of_getUser_some store token u hget
  have hreg : register { fcmToken := some token, latitude := some lat, longitude := some lon } store =
      (storeSet store token
        { fcmToken := token, latitude := lat, longitude := lon, appOpen := false, lastAlertedTypes := [] }, 200) := by
    simp [register, truthyStr, truthyNum, hne, hlat, hlon, hfmt]
  have hupd : updateLocation { fcmToken := some token, latitude := some lat, longitude := some lon, appOpen := ao } store =
      (store.map (fun p =>
        if p.1 == token then
          (p.1, { p.2 with latitude := lat, longitude := lon, appOpen := ao.getD false })
        else p), 200) := by
    simp [updateLocation, truthyStr, truthyNum, hne, hlat, hlon, hany]
  refine ⟨by rw [hreg], ?_, by rw [hupd], ?_⟩
  · rw [hreg]
    exact getUser_storeSet_self store token _
  · rw [hupd]
    rw [getUser_mapUpdate_self store token
      (fun v => { v with latitude := lat, longitude := lon, appOpen := ao.getD false })]
    rw [hget]
    rfl

/-- Claim C6 amended instance: the two handlers evaluated on a concrete
existing subscriber. -/
theorem C6_register_resets_amended_witness :
    (getUser [("ExponentPushToken[xy]",
        { fcmToken := "ExponentPushToken[xy]", latitude := 1, longitude := 2, appOpen := true, lastAlertedTypes := ["Temp_danger"] })]
        "ExponentPushToken[xy]" =
      some { fcmToken := "ExponentPushToken[xy]", latitude := 1, longitude := 2, appOpen := true, lastAlertedTypes := ["Temp_danger"] } ∧
      isExpoToken "ExponentPushToken[xy]" = true ∧
      "ExponentPushToken[xy]" ≠ "" ∧ (5 : ℚ) ≠ 0 ∧ (6 : ℚ) ≠ 0) ∧
    getUser (register { fcmToken := some "ExponentPushToken[xy]", latitude := some 5, longitude := some 6 }
        [("ExponentPushToken[xy]",
          { fcmToken := "ExponentPushToken[xy]", latitude := 1, longitude := 2, appOpen := true, lastAlertedTypes := ["Temp_danger"] })]).1
        "ExponentPushToken[xy]" =
      some { fcmToken := "ExponentPushToken[xy]", latitude := 5, longitude := 6, appOpen := false, lastAlertedTypes := [] } ∧
    getUser (updateLocation { fcmToken := some "ExponentPushToken[xy]", latitude := some 5, longitude := some 6, appOpen := none }
        [("ExponentPushToken[xy]",
          { fcmToken := "ExponentPushToken[xy]", latitude := 1, longitude := 2, appOpen := true, lastAlertedTypes := ["Temp_danger"] })]).1
        "ExponentPushToken[xy]" =
      some { fcmToken := "ExponentPushToken[xy]", latitude := 5, longitude := 6, appOpen := false, lastAlertedTypes := ["Temp_danger"] } :=
  ⟨⟨by decide, by decide, by decide, by decide, by decide⟩,
    (C6_register_resets_amended
      [("ExponentPushToken[xy]", { fcmToken := "ExponentPushToken[xy]", latitude := 1, longitude := 2, appOpen := true, lastAlertedTypes := ["Temp_danger"] })]
      "ExponentPushToken[xy]" 5 6
      { fcmToken := "ExponentPushToken[xy]", latitude := 1, longitude := 2, appOpen := true, lastAlertedTypes := ["Temp_danger"] }
      none (by decide) (by decide) (by decide) (by decide) (by decide)).2.1,
    (C6_register_resets_amended
      [("ExponentPushToken[xy]", { fcmToken := "ExponentPushToken[xy]", latitude := 1, longitude := 2, appOpen := true, lastAlertedTypes := ["Temp_danger"] })]
      "ExponentPushToken[xy]" 5 6
      { fcmToken := "ExponentPushToken[xy]", latitude := 1, longitude := 2, appOpen := true, lastAlertedTypes := ["Temp_danger"] }
      none (by decide) (by decide) (by decide) (by decide) (by decide)).2.2.2⟩

/-- Claim C9: a location update for an address absent from the registry
with a validly formatted token and truthy coordinates auto-creates the
subscriber with the given location, the given-or-default appOpen and an
empty alertedTypes list, and reports success. -/
theorem C9_update_location_autocreates (store : Store) (token : String)
    (lat lon : ℚ) (ao : Option Bool)
    (habs : getUser store token = none)
    (hfmt : isExpoToken token = true)
    (hne : token ≠ "") (hlat : lat ≠ 0) (hlon : lon ≠ 0) :
    updateLocation { fcmToken := some token, latitude := some lat, longitude := some lon, appOpen := ao } store =
      (store ++ [(token,
        { fcmToken := token, latitude := lat, longitude := lon, appOpen := ao.getD false, lastAlertedTypes := [] })], 200) ∧
    getUser (updateLocation { fcmToken := some token, latitude := some lat, longitude := some lon, appOpen := ao } store).1 token =
      some { fcmToken := token, latitude := lat, longitude := lon, appOpen := ao.getD false, lastAlertedTypes := [] } := by
  have hanyf : store.any (fun p => p.1 == token) = false :=
    not_any_of_getUser_none store token habs
  have h1 : updateLocation { fcmToken := some token, latitude := some lat, longitude := some lon, appOpen := ao } store =
      (store ++ [(token,
        { fcmToken := token, latitude := lat, longitude := lon, appOpen := ao.getD false, lastAlertedTypes := [] })], 200) := by
    simp [updateLocation, truthyStr, truthyNum, hne, hlat, hlon, hanyf, hfmt]
  refine ⟨h1, ?_⟩
  rw [h1]
  exact getUser_append_single store token _ habs

/-- Claim C9 instance: auto-creation on an empty registry. -/
theorem C9_update_location_autocreates_witness :
    (getUser ([] : Store) "ExponentPushToken[w]" = none ∧
      isExpoToken "ExponentPushToken[w]" = true ∧
      "ExponentPushToken[w]" ≠ "" ∧ (7 : ℚ) ≠ 0 ∧ (8 : ℚ) ≠ 0) ∧
    updateLocation { fcmToken := some "ExponentPushToken[w]", latitude := some 7, longitude := some 8, appOpen := some true }
        ([] : Store) =
      (([] : Store) ++ [("ExponentPushToken[w]",
        { fcmToken := "ExponentPushToken[w]", latitude := 7, longitude := 8, appOpen := (some true).getD false, lastAlertedTypes := [] })], 200) :=
  ⟨⟨by decide, by decide, by decide, by decide, by decide⟩,
    (C9_update_location_autocreates ([] : Store) "ExponentPushToken[w]" 7 8
      (some true) (by decide) (by decide) (by decide) (by decide) (by decide)).1⟩

/-- Claim C10: a register or update-location request whose latitude or
longitude is the number 0, or whose token is the empty string, is rejected
with a 400 validation error and leaves the registry unchanged — the falsy
presence check treats 0 and the empty string as missing. -/
theorem C10_falsy_zero_rejected (store : Store) (tok : Option String)
    (lat lon : Option ℚ) (ao : Option Bool)
    (h : lat = some 0 ∨ lon = some 0 ∨ tok = some "") :
    register { fcmToken := tok, latitude := lat, longitude := lon } store =
      (store, 400) ∧
    updateLocation { fcmToken := tok, latitude := lat, longitude := lon, appOpen := ao } store = (store, 400) := by
  rcases h with h | h | h <;> subst h <;>
    exact ⟨by simp [register, truthyStr, truthyNum],
      by simp [updateLocation, truthyStr, truthyNum]⟩

/-- Claim C10 instance: latitude 0 on the equator is rejected by both
handlers even with a validly formatted token. -/
theorem C10_falsy_zero_rejected_witness :
    ((some (0 : ℚ) = some 0 ∨ some (9 : ℚ) = some 0 ∨
        some "ExponentPushToken[z]" = some "") ∧
      register { fcmToken := some "ExponentPushToken[z]", latitude := some 0, longitude := some 9 } ([] : Store) = (([] : Store), 400)) ∧
    updateLocation { fcmToken := some "ExponentPushToken[z]", latitude := some 0, longitude := some 9, appOpen := none }
        ([] : Store) = (([] : Store), 400) :=
  ⟨⟨Or.inl rfl,
    (C10_falsy_zero_rejected ([] : Store) (some "ExponentPushToken[z]")
      (some 0) (some 9) none (Or.inl rfl)).1⟩,
    (C10_falsy_zero_rejected ([] : Store) (some "ExponentPushToken[z]")
      (some 0) (some 9) none (Or.inl rfl)).2⟩
